import Mathlib

/-!
Shallow embedding of `notes_base.py` (kakitoru): note assembly, field
builders, configuration loading, template resolution, and the
temp-file-based file writer, together with theorems settling the spec
claims.

Python values that the note fields can hold are modelled by `PyVal`
(strings and ints suffice for the claims); dictionaries by association
lists with Python's `dict.update` semantics; the file system by a map
from path strings to optional contents; exceptions by `Except Err`.
-/

namespace Kakitoru

/-- Python values occurring as tag-list elements: strings and ints. -/
inductive PyVal where
  | str (s : String)
  | int (n : Int)
deriving DecidableEq, Repr

/-- Python `str()` applied to a `PyVal`. -/
def PyVal.toStr : PyVal → String
  | .str s => s
  | .int n => toString n

/-- Whether a `PyVal` is a Python `str`. -/
def PyVal.isStr : PyVal → Bool
  | .str _ => true
  | .int _ => false

/-- Values stored in a note dictionary. -/
inductive Value where
  | vstr (s : String)
  | vint (n : Int)
  | vnone
  | vlist (l : List PyVal)
deriving DecidableEq, Repr

/-- Python truthiness for `Value`. -/
def Value.truthy : Value → Bool
  | .vstr s => s ≠ ""
  | .vint n => n ≠ 0
  | .vnone => false
  | .vlist l => l ≠ []

/-- Python truthiness of an optional string argument (`None` and `""` are falsy). -/
def optTruthy : Option String → Bool
  | none => false
  | some s => s ≠ ""

/-- The `Value` a builder stores for an optional string argument. -/
def optVal : Option String → Value
  | none => .vnone
  | some s => .vstr s

/-- A Python dict, as an association list preserving insertion order. -/
def Dict := List (String × Value)
deriving DecidableEq

instance : Inhabited Dict := ⟨([] : List (String × Value))⟩

/-- `d[k] = v` with Python semantics: replace in place if the key exists,
else append at the end. -/
def Dict.set (d : Dict) (k : String) (v : Value) : Dict :=
  if (List.any d (fun p => p.1 = k)) then
    List.map (fun p => if p.1 = k then (k, v) else p) d
  else
    List.append d [(k, v)]

/-- `d.update(e)`: apply `Dict.set` for every pair of `e`, in order. -/
def Dict.updateWith (d e : Dict) : Dict :=
  List.foldl (fun acc kv => Dict.set acc kv.1 kv.2) d e

/-- Key membership in a dict. -/
def Dict.hasKey (d : Dict) (k : String) : Bool :=
  List.any d (fun p => p.1 = k)

/-- Exceptions the embedded code can raise. `notesErr` is the wrapped
`NotesErr` kind; the others are raw Python exceptions. -/
inductive Err where
  | notesErr (msg : String)
  | attributeError (msg : String)
  | keyError (k : String)
  | ioError (msg : String)
deriving DecidableEq, Repr

/-- The recognized configuration keys, as a record (each access in the
source assumes the key is present; `notes_file` membership is tested, so
it is optional). -/
structure Config where
  default_content_type : String := "text"
  default_template_file : String := ""
  append_date_to_header : Bool := false
  auto_prepend_hashtag : Bool := false
  notes_file : Option String := none
deriving DecidableEq, Repr

/-- The file system: a map from path to contents, `none` when the path
does not exist. -/
def FS := String → Option String

/-- `os.path.exists`. -/
def FS.exists (fs : FS) (p : String) : Bool := (fs p).isSome

/-- `NamedTemporaryFile(prefix, suffix, delete=False)`: creates a fresh
empty file at the (unique) temp path and returns the file system with it
present. -/
def create_tmp_file (fs : FS) (tmpname : String) : FS :=
  fun n => if n = tmpname then some "" else fs n

/-- `write_data_to_file(filename, data)`: append when the file exists
(`'a'`), otherwise create it (`'w'`); returns `True` on success. -/
def write_data_to_file (fs : FS) (filename data : String) : FS × Bool :=
  match fs filename with
  | some old => (fun n => if n = filename then some (old ++ data) else fs n, true)
  | none => (fun n => if n = filename then some data else fs n, true)

/-- `read_file(filename)`: contents on success, `NotesErr` when the open
fails (file missing). -/
def read_file (fs : FS) (filename : String) : Except Err String :=
  match fs filename with
  | some c => .ok c
  | none => .error (.notesErr ("Failed to read file " ++ filename))

/-- `rename_file(src, dest)` via `shutil.move`: move the source onto the
destination, `NotesErr` when the source is missing. -/
def rename_file (fs : FS) (src_file dest_file : String) : Except Err (FS × Bool) :=
  match fs src_file with
  | some c =>
      .ok (fun n => if n = dest_file then some c else if n = src_file then none else fs n, true)
  | none => .error (.notesErr ("Failed to rename " ++ src_file ++ " to " ++ dest_file))

/-- `prepend_data_to_file(filename, data)`: create a temp file, write the
new data to it, append the old contents when the destination exists, then
rename the temp file onto the destination; returns `True`. `tmpname` is
the unique name `tempfile` chose. -/
def prepend_data_to_file (fs : FS) (tmpname filename data : String) :
    Except Err (FS × Bool) := do
  let fs1 := create_tmp_file fs tmpname
  let fs2 := (write_data_to_file fs1 tmpname data).1
  let fs3 ←
    if FS.exists fs2 filename then do
      let notes_data ← read_file fs2 filename
      pure (write_data_to_file fs2 tmpname notes_data).1
    else
      pure fs2
  let r ← rename_file fs3 tmpname filename
  pure (r.1, true)

/-- `comment(comment=None)`: `{'comment': comment}`. -/
def comment (c : Option String) : Dict := [("comment", optVal c)]

/-- `content(content=None)`: `{'content': content}`. -/
def content (c : Option String) : Dict := [("content", optVal c)]

/-- `content_type(content_type=None)`: the argument when truthy, else the
configuration's `default_content_type`. -/
def content_type (cfg : Config) (ct : Option String) : String :=
  if optTruthy ct then ct.getD "" else cfg.default_content_type

/-- `header(header=None)` with `self.date` already resolved to `date`:
if the argument is truthy, append " / <date>" when
`append_date_to_header` is set; otherwise the header is the date
itself. -/
def header (cfg : Config) (date : String) (h : Option String) : Dict :=
  if optTruthy h then
    if cfg.append_date_to_header then
      [("header", .vstr (h.getD "" ++ " / " ++ date))]
    else
      [("header", .vstr (h.getD ""))]
  else
    [("header", .vstr date)]

/-- Python `s.startswith(pre)`: `pre` is a prefix of `s` (modelled on
the character list so prefix facts are provable). -/
def startswith (s pre : String) : Bool :=
  List.isPrefixOf pre.toList s.toList

/-- One iteration of the `tags` loop for the element `tag`: first coerce
`tags[idx]` to `str(tag)` when the element is not a string, then — when
`auto_prepend_hashtag` is set — test `tag.startswith("#")` on the
ORIGINAL element (an `AttributeError` when it is not a string) and
overwrite `tags[idx]` with `"#{}".format(tag)` when the test is false. -/
def tag_norm (cfg : Config) (tag : PyVal) : Except Err PyVal :=
  let coerced : PyVal := if tag.isStr then tag else .str tag.toStr
  if cfg.auto_prepend_hashtag then
    match tag with
    | .str s =>
        if startswith s "#" then .ok coerced
        else .ok (.str ("#" ++ PyVal.toStr tag))
    | .int _ =>
        .error (.attributeError "int object has no attribute startswith")
  else
    .ok coerced

/-- `tags(tags=None)`: normalize each element in order (the loop mutates
only the index it is visiting, so each iteration sees the original
element); the first exception aborts the call. Returns the value stored
under the `tags` key. -/
def tags (cfg : Config) : List PyVal → Except Err (List PyVal)
  | [] => .ok []
  | t :: ts => do
    let v ← tag_norm cfg t
    let vs ← tags cfg ts
    pure (v :: vs)

/-- `urls(urls=None)`: `{'urls': urls or []}`, unchanged. -/
def urls (us : List PyVal) : Dict := [("urls", .vlist us)]

/-- The assembler's inclusion loop: `for element in [comment, content,
header]: for value in element.values(): if value: note.update(element)`.
Each builder dict is a singleton, so the element is merged exactly when
its single value is truthy. -/
def mergeTruthy (acc : Dict) (element : Dict) : Dict :=
  List.foldl
    (fun a v => if Value.truthy v then Dict.updateWith a element else a)
    acc (List.map (fun p => p.2) element)

/-- `note(date, comment, content, tags, urls, header, **kwargs)`:
resolve `self.date` (`date or self.get_date()`, with `getDate` the
timestamp `get_date` would produce), build each field, include
comment/content/header only when truthy, tags/urls only when non-empty,
then merge the extra keyword fields unconditionally. -/
def note (cfg : Config) (getDate : String) (date c ct hd : Option String)
    (ts us : List PyVal) (kwargs : Dict) : Except Err Dict := do
  let d := if optTruthy date then date.getD "" else getDate
  let commentD := comment c
  let contentD := content ct
  let headerD := header cfg d hd
  let tagsL ← tags cfg ts
  let tagsD : Dict := [("tags", .vlist tagsL)]
  let urlsD := urls us
  let n : Dict := []
  let n := mergeTruthy (mergeTruthy (mergeTruthy n commentD) contentD) headerD
  let n := if tagsL ≠ [] then Dict.updateWith n tagsD else n
  let n := if us ≠ [] then Dict.updateWith n urlsD else n
  let n := List.foldl (fun a kv => Dict.set a kv.1 kv.2) n kwargs
  pure n

/-- The contents of the YAML configuration file, as the loader sees it:
missing, raising a parse (or read) exception, or parsed to a value
(`yaml.safe_load` yields `None` for an empty document). -/
inductive YamlFile where
  | missing
  | malformed (msg : String)
  | parsed (d : Option Dict)
deriving DecidableEq

/-- `get_yaml_data(yaml_file)`: `None` when the file is missing; any
exception while reading or parsing is caught, logged and turned into
`None`; otherwise the loaded data. It never raises. -/
def get_yaml_data : YamlFile → Option Dict
  | .missing => none
  | .malformed _ => none
  | .parsed d => d

/-- `get_configs(config_file, **kwargs)`: `get_yaml_data(...) or {}`
inside a try/except that would re-raise as `NotesErr`, then the keyword
overrides merged in. Since `get_yaml_data` never raises, the except
branch is dead and the result is always `ok`. -/
def get_configs (yf : YamlFile) (kwargs : Dict) : Except Err Dict :=
  let configs := (get_yaml_data yf).getD []
  .ok (List.foldl (fun acc kv => Dict.set acc kv.1 kv.2) configs kwargs)

/-- `os.path.dirname`, POSIX semantics: everything before the final
slash, with trailing slashes stripped unless the head is all slashes. -/
def dirname (p : String) : String :=
  let cs := p.toList
  let base := (List.takeWhile (fun c => c ≠ '/') cs.reverse).length
  let head := List.take (cs.length - base) cs
  if head ≠ [] ∧ List.any head (fun c => c ≠ '/') then
    String.mk (List.dropWhile (fun c => c = '/') head.reverse).reverse
  else
    String.mk head

/-- `notes_file(notes_file=None)`: keep a truthy argument, else fall back
to the configuration's `notes_file` key, else `NotesErr`; then `NotesErr`
unless the resolved path's parent directory exists (`dirs` is the
directory-existence oracle, `os.path.isdir`). -/
def notes_file (cfg : Config) (dirs : String → Bool) (nf : Option String) :
    Except Err String := do
  let f ←
    if optTruthy nf then
      pure (nf.getD "")
    else
      match cfg.notes_file with
      | some v => pure v
      | none => Except.error (Err.notesErr "Path to notes file not defined.")
  if dirs (dirname f) then
    pure f
  else
    Except.error (Err.notesErr ("Notes file's directory does not exist: " ++ dirname f))

/-- The destination resolution in `take_note`:
`notes_file = notes_file or self.notes_file(notes_file)` — a truthy
argument short-circuits and is used as-is; only a falsy argument goes
through `notes_file` (and its directory check). -/
def take_note_notes_file (cfg : Config) (dirs : String → Bool)
    (nf : Option String) : Except Err String :=
  if optTruthy nf then pure (nf.getD "") else notes_file cfg dirs nf

/-- `template_file(template_file=None)`: the argument when truthy, else
the configuration's `default_template_file`; `NotesErr` unless the
resolved path exists on disk. -/
def template_file (cfg : Config) (fs : FS) (tf : Option String) :
    Except Err String :=
  let f := if optTruthy tf then tf.getD "" else cfg.default_template_file
  if FS.exists fs f then
    .ok f
  else
    .error (.notesErr ("Template file " ++ f ++ " not found."))

/-- `get_template(template_file)`: read the template text
(`read_file`); the compiled template is identified with its text, the
engine itself being external. -/
def get_template (fs : FS) (tf : String) : Except Err String :=
  read_file fs tf

/-- `render_template(template, template_data)` with the Jinja2 engine
abstracted as the total capability `render : template text → note dict →
content type → rendered text`. -/
def render_template (render : String → Dict → String → String)
    (templateText : String) (n : Dict) (ct : String) : String :=
  render templateText n ct

/-- `render_note(template_file, note, content_type)`: resolve the content
type, default the note (`note or self.note()`), resolve and load the
template, and render it with `{'note': note, 'content_type':
content_type}`. -/
def render_note (render : String → Dict → String → String) (cfg : Config)
    (fs : FS) (getDate : String) (tf : Option String) (n : Dict)
    (ct : Option String) : Except Err String := do
  let ctype := content_type cfg ct
  let n ← if n ≠ ([] : List (String × Value)) then pure n
          else note cfg getDate none none none none [] [] []
  let tfile ← template_file cfg fs tf
  let templateText ← get_template fs tfile
  pure (render_template render templateText n ctype)

/-- The result of `take_note`: the rendered text under dry-run, else the
writer's boolean. -/
inductive TakeRes where
  | text (s : String)
  | wrote (b : Bool)
deriving DecidableEq, Repr

/-- `take_note(note, notes_file, append, content_type, template_file,
dryrun)`: resolve the destination (truthy argument short-circuits the
check), render the note, return the text under dry-run, else append or
prepend. The file system is threaded through; `tmpname` is the unique
temp-file name the prepend path would use. -/
def take_note (render : String → Dict → String → String) (cfg : Config)
    (fs : FS) (dirs : String → Bool) (getDate tmpname : String) (n : Dict)
    (nf : Option String) (append : Bool) (ct tf : Option String)
    (dryrun : Bool) : Except Err (TakeRes × FS) := do
  let dest ← take_note_notes_file cfg dirs nf
  let rendered ← render_note render cfg fs getDate tf n ct
  if dryrun then
    pure (.text rendered, fs)
  else if append then
    let r := write_data_to_file fs dest rendered
    pure (.wrote r.2, r.1)
  else
    let r ← prepend_data_to_file fs tmpname dest rendered
    pure (.wrote r.2, r.1)

/-- The heap of Python list objects, for the in-place-mutation claim:
a map from object identity to list contents. -/
def Heap := Nat → List PyVal

/-- `tags` at the object level: `tags = tags or []` rebinds to a fresh
empty list (`fresh`) when the argument list is empty, else keeps the very
same object; the loop then overwrites that object's cells in place and
the returned dict holds the same reference. Partial mutation before an
exception is not modelled, as no claim observes the heap after a
failure. -/
def tags_method (cfg : Config) (heap : Heap) (fresh r : Nat) :
    Except Err (Heap × Nat) :=
  let tr := if heap r = [] then fresh else r
  match tags cfg (heap tr) with
  | .ok l => .ok (fun n => if n = tr then l else heap n, tr)
  | .error e => .error e

/-! ## Theorems -/

/-- Helper: the file system `prepend_data_to_file` produces, in closed
form: the destination holds the new data followed by the old contents,
the temp file is gone (moved), and every other path is untouched. -/
theorem prepend_data_to_file_eq (fs : FS) (tmp fn data : String) (htmp : tmp ≠ fn) :
    prepend_data_to_file fs tmp fn data =
      .ok (fun n => if n = fn then some (data ++ ((fs fn).getD "")) else
                    if n = tmp then none else fs n, true) := by
  have hfn : (fn = tmp) = False := by simp [Ne.symm htmp]
  rcases h : fs fn with _ | old <;>
  · simp only [prepend_data_to_file, create_tmp_file, write_data_to_file, read_file,
      rename_file, FS.exists, hfn, h, if_true, if_false, eq_self_iff_true,
      Option.isSome, Bind.bind, Except.bind, Pure.pure, Except.pure]
    simp only [Bool.false_eq_true, if_false, Except.ok.injEq, Prod.mk.injEq, and_true]
    funext n
    by_cases h1 : n = fn <;> by_cases h2 : n = tmp <;> simp [h1, h2, hfn, h]

/-- C1: when `prepend_data_to_file(filename, data)` succeeds it returns
`True` and the destination afterwards holds exactly `data` followed by
its previous contents (just `data` when it did not exist); hence
prepending `a` then `b` to an initially empty (or absent) file leaves it
equal to `b ++ a`, most-recent-first, with no separators inserted. The
temp names `tempfile` picks are distinct from the destination path. -/
theorem prepend_data_to_file_spec (fs : FS) (tmp tmp2 fn a b : String)
    (h1 : tmp ≠ fn) (h2 : tmp2 ≠ fn) :
    (∃ fs', prepend_data_to_file fs tmp fn a = .ok (fs', true) ∧
        fs' fn = some (a ++ (fs fn).getD "")) ∧
    ((fs fn).getD "" = "" →
      ∃ fs1 fs2, prepend_data_to_file fs tmp fn a = .ok (fs1, true) ∧
        prepend_data_to_file fs1 tmp2 fn b = .ok (fs2, true) ∧
        fs2 fn = some (b ++ a)) := by
  refine ⟨⟨_, prepend_data_to_file_eq fs tmp fn a h1, by simp⟩, fun hempty => ?_⟩
  refine ⟨_, _, prepend_data_to_file_eq fs tmp fn a h1, prepend_data_to_file_eq _ tmp2 fn b h2, ?_⟩
  simp [hempty]

/-- Witness for C1 at a concrete file system and concrete paths. -/
theorem prepend_data_to_file_spec_witness :
    ("/tmp/notes.abc123.md" ≠ "/home/u/notes.md") ∧
    ("/tmp/notes.def456.md" ≠ "/home/u/notes.md") ∧
    (((fun _ => none : FS) "/home/u/notes.md").getD "" = "" →
      ∃ fs1 fs2,
        prepend_data_to_file (fun _ => none) "/tmp/notes.abc123.md" "/home/u/notes.md" "A\n" =
          .ok (fs1, true) ∧
        prepend_data_to_file fs1 "/tmp/notes.def456.md" "/home/u/notes.md" "B\n" =
          .ok (fs2, true) ∧
        fs2 "/home/u/notes.md" = some ("B\n" ++ "A\n")) :=
  ⟨by decide, by decide,
    (prepend_data_to_file_spec (fun _ => none) "/tmp/notes.abc123.md" "/tmp/notes.def456.md"
      "/home/u/notes.md" "A\n" "B\n" (by decide) (by decide)).2⟩

/-- Helper: a string with the " / " separator inside is never empty. -/
theorem sep_append_ne_empty (s t : String) : s ++ " / " ++ t ≠ "" := by
  intro hc
  have h1 : (s ++ " / " ++ t).length = ("" : String).length := by rw [hc]
  rw [String.length_append, String.length_append] at h1
  have h2 : (" / ").length = 3 := rfl
  have h3 : ("" : String).length = 0 := rfl
  omega

/-- Helper: truthiness of a builder value agrees with truthiness of the
optional string it was built from. -/
theorem truthy_optVal (c : Option String) : (optVal c).truthy = optTruthy c := by
  cases c <;> simp [optVal, optTruthy, Value.truthy]

/-- Helper: `header` always returns a singleton dict whose value is
truthy once the resolved timestamp is nonempty. -/
theorem header_singleton_truthy (cfg : Config) (getDate : String) (hd : Option String)
    (h : getDate ≠ "") :
    ∃ v, header cfg getDate hd = [("header", v)] ∧ Value.truthy v = true := by
  rcases hd with _ | s
  · exact ⟨.vstr getDate, by simp [header, optTruthy], by simp [Value.truthy, h]⟩
  · by_cases hs : s = ""
    · exact ⟨.vstr getDate, by simp [header, optTruthy, hs], by simp [Value.truthy, h]⟩
    · rcases hb : cfg.append_date_to_header
      · exact ⟨.vstr s, by simp [header, optTruthy, hs, hb], by simp [Value.truthy, hs]⟩
      · exact ⟨.vstr (s ++ " / " ++ getDate), by simp [header, optTruthy, hs, hb],
          by simp [Value.truthy, sep_append_ne_empty]⟩

/-- Helper: `note` with no date, tags, urls or extras reduces to the
comment/content/header inclusion loop. -/
theorem note_no_extras_eq (cfg : Config) (getDate : String) (c ct hd : Option String) :
    note cfg getDate none c ct hd [] [] [] = .ok
      (mergeTruthy (mergeTruthy (mergeTruthy [] (comment c)) (content ct))
        (header cfg getDate hd)) := by
  simp [note, tags, urls, optTruthy, Bind.bind, Except.bind, Pure.pure, Except.pure]

/-- C2 counterexample: with every argument empty or absent, `note()` is
NOT the empty mapping — the header key is present, holding the per-call
timestamp (`header(None)` falls back to `self.date`, which is truthy). -/
theorem note_empty_args_counterexample :
    note {} "Mon Jan 01 00:00:00 PST 2024" none none none none [] [] [] =
      .ok [("header", .vstr "Mon Jan 01 00:00:00 PST 2024")] ∧
    note {} "Mon Jan 01 00:00:00 PST 2024" none none none none [] [] [] ≠
      .ok [] := by
  refine ⟨rfl, fun hc => ?_⟩
  injection hc with h
  exact List.noConfusion h

set_option maxHeartbeats 1000000 in
/-- C2 amended: with comment/content/header/tags/urls/extras all empty
or absent, `note()` returns `{header: <timestamp>}` (the timestamp is
nonempty, so the header key is always included); a key among
comment/content appears in the result only if that argument is truthy,
and `note(comment="hi")` alone yields `{comment: "hi", header:
<timestamp>}` with no content/tags/urls keys. -/
theorem note_truthy_inclusion_amended (cfg : Config) (getDate : String)
    (c ct hd : Option String) (h : getDate ≠ "") :
    note cfg getDate none none none none [] [] [] = .ok [("header", .vstr getDate)] ∧
    note cfg getDate none (some "hi") none none [] [] [] =
      .ok [("comment", .vstr "hi"), ("header", .vstr getDate)] ∧
    ∃ d, note cfg getDate none c ct hd [] [] [] = .ok d ∧
      Dict.hasKey d "comment" = optTruthy c ∧
      Dict.hasKey d "content" = optTruthy ct ∧
      Dict.hasKey d "header" = true := by
  refine ⟨?_, ?_, ?_⟩
  · simp [note, comment, content, header, tags, urls, mergeTruthy, Dict.updateWith,
      Dict.set, Value.truthy, optTruthy, optVal, h, Bind.bind, Except.bind, Pure.pure,
      Except.pure]
  · simp [note, comment, content, header, tags, urls, mergeTruthy, Dict.updateWith,
      Dict.set, Value.truthy, optTruthy, optVal, h, Bind.bind, Except.bind, Pure.pure,
      Except.pure]
  · obtain ⟨v, hv, hvt⟩ := header_singleton_truthy cfg getDate hd h
    rw [note_no_extras_eq, hv]
    refine ⟨_, rfl, ?_, ?_, ?_⟩ <;>
    · by_cases hc : optTruthy c <;> by_cases hct : optTruthy ct <;>
        simp [mergeTruthy, comment, content, Dict.updateWith, Dict.set, Dict.hasKey,
          truthy_optVal, hc, hct, hvt]

/-- Witness for C2's amended theorem at a concrete timestamp. -/
theorem note_truthy_inclusion_amended_witness :
    ("Mon Jan 01 00:00:00 PST 2024" ≠ "") ∧
    (note {} "Mon Jan 01 00:00:00 PST 2024" none none none none [] [] [] =
      .ok [("header", .vstr "Mon Jan 01 00:00:00 PST 2024")] ∧
    note {} "Mon Jan 01 00:00:00 PST 2024" none (some "hi") none none [] [] [] =
      .ok [("comment", .vstr "hi"), ("header", .vstr "Mon Jan 01 00:00:00 PST 2024")] ∧
    ∃ d, note {} "Mon Jan 01 00:00:00 PST 2024" none (some "hi") none none [] [] [] =
        .ok d ∧
      Dict.hasKey d "comment" = optTruthy (some "hi") ∧
      Dict.hasKey d "content" = optTruthy none ∧
      Dict.hasKey d "header" = true) :=
  ⟨by decide,
    note_truthy_inclusion_amended {} "Mon Jan 01 00:00:00 PST 2024" (some "hi") none none
      (by decide)⟩

/-- C3 (code bug): with `auto_prepend_hashtag` set, `tags(["a", 1,
"#b"])` does not return `{tags: ["#a", "#1", "#b"]}` — after coercing
the element `1`, the loop still calls `startswith` on the ORIGINAL int,
which raises `AttributeError`; with the flag off, the very same input is
coerced fine, showing the coercion was meant to feed the hashtag step. -/
theorem tags_nonstring_hashtag_raises :
    tags { auto_prepend_hashtag := true } [.str "a", .int 1, .str "#b"] =
      .error (.attributeError "int object has no attribute startswith") ∧
    tags { auto_prepend_hashtag := false } [.str "a", .int 1, .str "#b"] =
      .ok [.str "a", .str "1", .str "#b"] :=
  ⟨rfl, rfl⟩

/-- C4 counterexample: a config file whose contents raise an outright
YAML parse exception yields the empty configuration `{}` (`get_yaml_data`
catches the exception, logs it and returns `None`), not a `NotesErr`. -/
theorem get_configs_malformed_counterexample :
    get_configs (.malformed "mapping values are not allowed here") [] = .ok [] :=
  rfl

/-- C4 amended: malformed YAML is swallowed inside `get_yaml_data`
(logged, `None` returned), so configuration loading degrades to the
empty configuration exactly as for a missing file, and never surfaces a
wrapped `NotesErr` for parse failures. -/
theorem get_configs_malformed_amended (msg : String) (kwargs : Dict) :
    get_configs (.malformed msg) kwargs = get_configs .missing kwargs ∧
    get_configs (.malformed msg) [] = .ok [] ∧
    ∀ e, get_configs (.malformed msg) kwargs ≠ .error e := by
  refine ⟨rfl, rfl, fun e hc => ?_⟩
  simp [get_configs] at hc

/-- C7: with the per-call timestamp resolved to `date`, `header(t)` for
truthy `t` returns `{header: "<t> / <date>"}` when
`append_date_to_header` is set and `{header: t}` when it is not, and
`header(None)` returns `{header: <date>}` — the bare timestamp, no
" / " separator. -/
theorem header_spec (cfg : Config) (date t : String) (ht : t ≠ "") :
    (cfg.append_date_to_header = true →
      header cfg date (some t) = [("header", .vstr (t ++ " / " ++ date))]) ∧
    (cfg.append_date_to_header = false →
      header cfg date (some t) = [("header", .vstr t)]) ∧
    header cfg date none = [("header", .vstr date)] := by
  refine ⟨fun hb => ?_, fun hb => ?_, ?_⟩ <;> simp [header, optTruthy, ht, *]

/-- Witness for C7 with the flag set, at header text "Meeting". -/
theorem header_spec_witness :
    ("Meeting" ≠ "") ∧
    (({ append_date_to_header := true } : Config).append_date_to_header = true →
      header { append_date_to_header := true } "TS" (some "Meeting") =
        [("header", .vstr ("Meeting" ++ " / " ++ "TS"))]) ∧
    (({ append_date_to_header := true } : Config).append_date_to_header = false →
      header { append_date_to_header := true } "TS" (some "Meeting") =
        [("header", .vstr "Meeting")]) ∧
    header ({ append_date_to_header := true } : Config) "TS" none =
      [("header", .vstr "TS")] :=
  ⟨by decide, header_spec { append_date_to_header := true } "TS" "Meeting" (by decide)⟩

/-- Helper: a string starting with the freshly prepended hashtag starts
with "#". -/
theorem startswith_hash_append (s : String) : startswith ("#" ++ s) "#" = true := by
  simp [startswith, String.data_append, List.isPrefixOf]

/-- Helper: an element `tag_norm` accepted is a fixed point of
`tag_norm`. -/
theorem tag_norm_idem (cfg : Config) (e v : PyVal) (h : tag_norm cfg e = .ok v) :
    tag_norm cfg v = .ok v := by
  rcases hb : cfg.auto_prepend_hashtag with _ | _
  · rcases e with s | n
    · simp [tag_norm, hb, PyVal.isStr] at h
      rw [← h]
      simp [tag_norm, hb, PyVal.isStr]
    · simp [tag_norm, hb, PyVal.isStr, PyVal.toStr] at h
      rw [← h]
      simp [tag_norm, hb, PyVal.isStr, PyVal.toStr]
  · rcases e with s | n
    · by_cases hs : startswith s "#"
      · simp [tag_norm, hb, hs, PyVal.isStr] at h
        rw [← h]
        simp [tag_norm, hb, hs, PyVal.isStr]
      · simp [tag_norm, hb, hs, PyVal.isStr, PyVal.toStr] at h
        rw [← h]
        simp [tag_norm, hb, PyVal.isStr, startswith_hash_append]
    · simp [tag_norm, hb] at h

/-- C8: tag normalization is idempotent — whenever `tags` succeeds on a
list, running `tags` again on the normalized list it produced yields
that same list, under the same configuration. -/
theorem tags_idempotent (cfg : Config) (l l' : List PyVal)
    (h : tags cfg l = .ok l') : tags cfg l' = .ok l' := by
  induction l generalizing l' with
  | nil =>
    simp [tags] at h
    subst h
    simp [tags]
  | cons a t ih =>
    rcases hv : tag_norm cfg a with e | v
    · simp [tags, hv, Bind.bind, Except.bind] at h
    · rcases hts : tags cfg t with e | vs
      · simp [tags, hv, hts, Bind.bind, Except.bind] at h
      · simp [tags, hv, hts, Bind.bind, Except.bind, Pure.pure, Except.pure] at h
        rw [← h]
        simp [tags, tag_norm_idem cfg a v hv, ih vs hts, Bind.bind, Except.bind,
          Pure.pure, Except.pure]

/-- Witness for C8 at a concrete mixed tag list with the hashtag flag
set. -/
theorem tags_idempotent_witness :
    (tags { auto_prepend_hashtag := true } [.str "a", .str "#b"] =
      .ok [.str "#a", .str "#b"]) ∧
    tags { auto_prepend_hashtag := true } [.str "#a", .str "#b"] =
      .ok [.str "#a", .str "#b"] :=
  ⟨rfl,
    tags_idempotent { auto_prepend_hashtag := true } [.str "a", .str "#b"]
      [.str "#a", .str "#b"] rfl⟩

/-- C10: `tags` normalizes the caller's list object in place — for a
non-empty list, on success the returned `tags` value is the very same
object that was passed in (`tags or []` keeps a truthy list), now
holding the normalized elements, and no other heap object changes. -/
theorem tags_method_in_place (cfg : Config) (heap : Heap) (fresh r : Nat)
    (l' : List PyVal) (hne : heap r ≠ []) (h : tags cfg (heap r) = .ok l') :
    ∃ heap', tags_method cfg heap fresh r = .ok (heap', r) ∧
      heap' r = l' ∧ ∀ s, s ≠ r → heap' s = heap s := by
  refine ⟨fun n => if n = r then l' else heap n, ?_, by simp, fun s hs => by simp [hs]⟩
  simp [tags_method, hne, h]

/-- Witness for C10 at a one-object heap holding `["a"]`. -/
theorem tags_method_in_place_witness :
    ((fun n => if n = 0 then [PyVal.str "a"] else [] : Heap) 0 ≠ []) ∧
    (tags { auto_prepend_hashtag := true }
        ((fun n => if n = 0 then [PyVal.str "a"] else [] : Heap) 0) =
      .ok [.str "#a"]) ∧
    ∃ heap', tags_method { auto_prepend_hashtag := true }
        (fun n => if n = 0 then [PyVal.str "a"] else []) 1 0 = .ok (heap', 0) ∧
      heap' 0 = [.str "#a"] ∧
      ∀ s, s ≠ 0 → heap' s = (fun n => if n = 0 then [PyVal.str "a"] else [] : Heap) s :=
  ⟨by decide, rfl,
    tags_method_in_place { auto_prepend_hashtag := true }
      (fun n => if n = 0 then [PyVal.str "a"] else []) 1 0 [.str "#a"]
      (by decide) rfl⟩

/-- C5 counterexample: an explicit (truthy) `notes_file` argument whose
parent directory does not exist on disk (the directory oracle is
constantly false) does NOT raise — `notes_file or
self.notes_file(notes_file)` short-circuits past the directory check,
and the dry-run call completes, returning the rendered text. -/
theorem take_note_explicit_arg_skips_dir_check_counterexample :
    take_note (fun t _ c => t ++ "|" ++ c)
      { default_content_type := "text", default_template_file := "/tpl/t.j2" }
      (fun n => if n = "/tpl/t.j2" then some "TPL" else none)
      (fun _ => false)
      "TS" "/tmp/notes.x.md" [("comment", .vstr "hi")] (some "/nodir/n.md")
      false none none true =
    .ok (.text "TPL|text", fun n => if n = "/tpl/t.j2" then some "TPL" else none) :=
  rfl

/-- C5 amended: the parent-directory check runs only when the
destination comes from the configuration's `notes_file` key (the
explicit argument being falsy): then a missing parent directory raises
`NotesErr` during resolution, before rendering or writing; a truthy
explicit argument is returned as-is with no directory check. -/
theorem take_note_dir_check_only_config_amended (cfg : Config)
    (dirs : String → Bool) (p q : String) (hp : p ≠ "")
    (hq : cfg.notes_file = some q) (hd : dirs (dirname q) = false) :
    take_note_notes_file cfg dirs (some p) = .ok p ∧
    take_note_notes_file cfg dirs none =
      .error (.notesErr ("Notes file's directory does not exist: " ++ dirname q)) ∧
    ∀ (render : String → Dict → String → String) (fs : FS) (getDate tmpname : String)
      (n : Dict) (append : Bool) (ct tf : Option String) (dryrun : Bool),
      take_note render cfg fs dirs getDate tmpname n none append ct tf dryrun =
        .error (.notesErr ("Notes file's directory does not exist: " ++ dirname q)) := by
  refine ⟨?_, ?_, ?_⟩
  · simp [take_note_notes_file, optTruthy, hp, Pure.pure, Except.pure]
  · simp [take_note_notes_file, notes_file, optTruthy, hq, hd, Bind.bind, Except.bind,
      Pure.pure, Except.pure]
  · intro render fs getDate tmpname n append ct tf dryrun
    simp [take_note, take_note_notes_file, notes_file, optTruthy, hq, hd,
      Bind.bind, Except.bind, Pure.pure, Except.pure]

/-- Witness for C5's amended theorem: config-sourced destination under a
constantly-false directory oracle errors; the explicit path does not. -/
theorem take_note_dir_check_only_config_amended_witness :
    ("/x/n.md" ≠ "") ∧
    (({ notes_file := some "/nodir/n.md" } : Config).notes_file = some "/nodir/n.md") ∧
    ((fun _ => false : String → Bool) (dirname "/nodir/n.md") = false) ∧
    (take_note_notes_file { notes_file := some "/nodir/n.md" } (fun _ => false)
        (some "/x/n.md") = .ok "/x/n.md") ∧
    take_note_notes_file { notes_file := some "/nodir/n.md" } (fun _ => false) none =
      .error (.notesErr ("Notes file's directory does not exist: " ++
        dirname "/nodir/n.md")) :=
  have h := take_note_dir_check_only_config_amended
    { notes_file := some "/nodir/n.md" } (fun _ => false) "/x/n.md" "/nodir/n.md"
    (by decide) rfl rfl
  ⟨by decide, rfl, rfl, h.1, h.2.1⟩

/-- C6: a dry-run `take_note` call that returns normally returns exactly
the rendered note text and leaves the whole file system — in particular
the destination notes file — untouched (no write, prepend or rename). -/
theorem take_note_dryrun_frame (render : String → Dict → String → String)
    (cfg : Config) (fs : FS) (dirs : String → Bool) (getDate tmpname : String)
    (n : Dict) (nf : Option String) (append : Bool) (ct tf : Option String)
    (r : TakeRes) (fs' : FS)
    (h : take_note render cfg fs dirs getDate tmpname n nf append ct tf true =
      .ok (r, fs')) :
    fs' = fs ∧ ∃ s, r = .text s ∧ render_note render cfg fs getDate tf n ct = .ok s := by
  unfold take_note at h
  rcases hr : take_note_notes_file cfg dirs nf with e | dest <;> rw [hr] at h
  · simp [Bind.bind, Except.bind] at h
  · rcases hrn : render_note render cfg fs getDate tf n ct with e | s <;> rw [hrn] at h
    · simp [Bind.bind, Except.bind] at h
    · simp [Bind.bind, Except.bind, Pure.pure, Except.pure] at h
      exact ⟨h.2.symm, s, h.1.symm, rfl⟩

/-- Witness for C6 at a concrete successful dry-run call. -/
theorem take_note_dryrun_frame_witness :
    (take_note (fun t _ c => t ++ "|" ++ c)
      { default_content_type := "text", default_template_file := "/tpl/t.j2" }
      (fun n => if n = "/tpl/t.j2" then some "TPL" else none)
      (fun _ => true)
      "TS" "/tmp/notes.y.md" [("content", .vstr "body")] (some "/home/u/notes.md")
      true none none true =
      .ok (.text "TPL|text", fun n => if n = "/tpl/t.j2" then some "TPL" else none)) ∧
    ((fun n => if n = "/tpl/t.j2" then some "TPL" else none : FS) =
      (fun n => if n = "/tpl/t.j2" then some "TPL" else none : FS) ∧
     ∃ s, TakeRes.text "TPL|text" = .text s ∧
       render_note (fun t _ c => t ++ "|" ++ c)
         { default_content_type := "text", default_template_file := "/tpl/t.j2" }
         (fun n => if n = "/tpl/t.j2" then some "TPL" else none)
         "TS" none [("content", .vstr "body")] none = .ok s) :=
  ⟨rfl,
    take_note_dryrun_frame (fun t _ c => t ++ "|" ++ c)
      { default_content_type := "text", default_template_file := "/tpl/t.j2" }
      (fun n => if n = "/tpl/t.j2" then some "TPL" else none)
      (fun _ => true) "TS" "/tmp/notes.y.md" [("content", .vstr "body")]
      (some "/home/u/notes.md") true none none (.text "TPL|text")
      (fun n => if n = "/tpl/t.j2" then some "TPL" else none) rfl⟩

/-- C9: a template path that does not exist on disk — whether explicit,
or the configured default when no explicit path is given — makes
template resolution (and hence a render request) fail with the wrapped
`NotesErr`, never a raw I/O exception (`os.path.exists` raises
nothing; the miss is turned into `NotesErr` directly). -/
theorem template_file_missing_raises_notes_err (cfg : Config) (fs : FS) (p : String)
    (hp : p ≠ "") (hmiss : fs p = none) (hdef : fs cfg.default_template_file = none) :
    template_file cfg fs (some p) =
      .error (.notesErr ("Template file " ++ p ++ " not found.")) ∧
    template_file cfg fs none =
      .error (.notesErr ("Template file " ++ cfg.default_template_file ++
        " not found.")) ∧
    ∀ (render : String → Dict → String → String) (getDate : String) (n : Dict)
      (ct : Option String), n ≠ ([] : List (String × Value)) →
      render_note render cfg fs getDate (some p) n ct =
        .error (.notesErr ("Template file " ++ p ++ " not found.")) := by
  refine ⟨?_, ?_, ?_⟩
  · simp [template_file, FS.exists, optTruthy, hp, hmiss]
  · simp [template_file, FS.exists, optTruthy, hdef]
  · intro render getDate n ct hn
    simp [render_note, template_file, FS.exists, optTruthy, hp, hmiss, hn,
      Bind.bind, Except.bind, Pure.pure, Except.pure]

/-- Witness for C9 on an empty file system. -/
theorem template_file_missing_raises_notes_err_witness :
    ("/no.j2" ≠ "") ∧
    ((fun _ => none : FS) "/no.j2" = none) ∧
    ((fun _ => none : FS)
      ({ default_template_file := "/tpl/m.j2" } : Config).default_template_file = none) ∧
    (template_file { default_template_file := "/tpl/m.j2" } (fun _ => none)
        (some "/no.j2") =
      .error (.notesErr ("Template file " ++ "/no.j2" ++ " not found."))) ∧
    (template_file { default_template_file := "/tpl/m.j2" } (fun _ => none) none =
      .error (.notesErr ("Template file " ++ "/tpl/m.j2" ++ " not found."))) ∧
    render_note (fun t _ c => t ++ "|" ++ c)
        { default_template_file := "/tpl/m.j2" } (fun _ => none) "TS"
        (some "/no.j2") [("comment", .vstr "hi")] none =
      .error (.notesErr ("Template file " ++ "/no.j2" ++ " not found.")) :=
  have h := template_file_missing_raises_notes_err
    { default_template_file := "/tpl/m.j2" } (fun _ => none) "/no.j2"
    (by decide) rfl rfl
  ⟨by decide, rfl, rfl, h.1, by simpa using h.2.1,
    h.2.2 (fun t _ c => t ++ "|" ++ c) "TS" [("comment", .vstr "hi")] none
      (by decide)⟩

end Kakitoru
